import Mathlib

/-!
# ApiError and ApiResponse

A shallow embedding of the two constructors of `src/utils/ApiError.js` and
`src/utils/ApiResponse.js`, together with the part of the JavaScript object
model they rely on:

* values, with `undefined` standing for an omitted argument;
* default parameters (`p = d` takes `d` exactly when the argument is `undefined`);
* objects as ordered lists of own properties carrying an `enumerable` attribute;
* ordinary assignment `this.k = v`, which keeps the attributes of an own
  property that already exists and creates an enumerable one otherwise;
* the built-in `Error` constructor called by `super(message)`, which defines
  `message` (ECMA-262, 20.5.1.1) and `stack` (V8) as non-enumerable own properties;
* `Error.captureStackTrace(obj, constructorOpt)`, which installs a non-enumerable
  `stack`; the value it computes belongs to the runtime and is a parameter here.

Status codes are integers, as in the data model of the two classes.
-/

namespace ApiUtils

/-! ## Values -/

/-- JavaScript values that can be written as literals: the primitives, arrays
and plain records. Numbers are integers. -/
inductive JSValue where
  | undefined : JSValue
  | null : JSValue
  | bool (b : Bool) : JSValue
  | number (n : Int) : JSValue
  | string (s : String) : JSValue
  | array (elems : List JSValue) : JSValue
  | object (fields : List (String × JSValue)) : JSValue

namespace JSValue

/-- The test `v === undefined`. -/
def isUndefined : JSValue → Bool
  | undefined => true
  | _ => false

/-- ToBoolean (ECMA-262, 7.1.2): the truthiness used by `if (v)`. -/
def toBoolean : JSValue → Bool
  | undefined => false
  | null => false
  | bool b => b
  | number n => n != 0
  | string s => s != ""
  | array _ => true
  | object _ => true

mutual
/-- ToString (ECMA-262, 7.1.17) on literal values. An array is the join of its
elements with a comma, a plain record is `[object Object]`. The decimal form of a
number is the JavaScript one for magnitudes below `10^21`. -/
def toStr : JSValue → String
  | undefined => "undefined"
  | null => "null"
  | bool true => "true"
  | bool false => "false"
  | number n => toString n
  | string s => s
  | array elems => joinElems elems
  | object _ => "[object Object]"
/-- Array.prototype.join with the separator `,`: `undefined` and `null`
elements contribute the empty string. -/
def joinElems : List JSValue → String
  | [] => ""
  | [v] => elemStr v
  | v :: w :: rest => elemStr v ++ "," ++ joinElems (w :: rest)
/-- The text one array element contributes to a join. -/
def elemStr : JSValue → String
  | undefined => ""
  | null => ""
  | bool true => "true"
  | bool false => "false"
  | number n => toString n
  | string s => s
  | array elems => joinElems elems
  | object _ => "[object Object]"
end

end JSValue

/-- A default parameter `p = dflt`: the default is taken exactly when the
argument is `undefined`, which is also what an omitted argument is. -/
def defaultParam (arg dflt : JSValue) : JSValue :=
  match arg with
  | .undefined => dflt
  | v => v

/-! ## Objects -/

/-- An own data property of an object. -/
structure Property where
  key : String
  value : JSValue
  enumerable : Bool

/-- An object, as the list of its own properties in creation order. -/
abbrev JSObject := List Property

namespace JSObject

/-- Whether the object has an own property `k`. -/
def hasOwn (o : JSObject) (k : String) : Bool :=
  o.any (fun p => p.key == k)

/-- The value of own property `k`, `undefined` when there is none. -/
def get (o : JSObject) (k : String) : JSValue :=
  match o.find? (fun p => p.key == k) with
  | some p => p.value
  | none => .undefined

/-- The assignment `o.k = v`. An existing own property keeps its attributes and
its place and only changes value; otherwise a new enumerable property is added. -/
def set (o : JSObject) (k : String) (v : JSValue) : JSObject :=
  if o.hasOwn k then
    o.map (fun p => if p.key == k then { p with value := v } else p)
  else
    o ++ [{ key := k, value := v, enumerable := true }]

/-- Defining `k` as a non-enumerable data property
(CreateNonEnumerableDataPropertyOrThrow), replacing any own property `k`. -/
def defineHidden (o : JSObject) (k : String) (v : JSValue) : JSObject :=
  if o.hasOwn k then
    o.map (fun p => if p.key == k then { p with value := v, enumerable := false } else p)
  else
    o ++ [{ key := k, value := v, enumerable := false }]

/-- The names of all own properties, in order. -/
def ownKeys (o : JSObject) : List String :=
  o.map (fun p => p.key)

/-- The keys `JSON.stringify` emits for the object: its own enumerable
properties whose value is not `undefined`, in order. -/
def jsonKeys (o : JSObject) : List String :=
  (o.filter (fun p => p.enumerable && !p.value.isUndefined)).map (fun p => p.key)

end JSObject

/-! ## The runtime's stack capture -/

/-- The stack capture of the runtime in which `new ApiError(...)` is evaluated.
The constructor only calls it; what it yields is decided by the runtime (the
calls active at that moment, `Error.stackTraceLimit`, `Error.prepareStackTrace`). -/
structure Runtime where
  /-- The value `Error.captureStackTrace(obj, constructorOpt)` makes the `stack`
  of `obj`, the calls above and including `constructorOpt` being left out. -/
  capture : JSObject → String → JSValue

/-- The call `Error.captureStackTrace(o, constructorOpt)`: it installs what the
runtime captures as the non-enumerable `stack` of `o`. -/
def captureStackTrace (rt : Runtime) (o : JSObject) (constructorOpt : String) : JSObject :=
  o.defineHidden "stack" (rt.capture o constructorOpt)

/-- The call `super(message)` of a class extending `Error`: a fresh object with a
non-enumerable `stack`, and a non-enumerable `message` holding the text of the
argument unless the argument is `undefined`. -/
def errorConstructor (rt : Runtime) (newTarget : String) (message : JSValue) : JSObject :=
  let o : JSObject := []
  let o := if message.isUndefined then o else o.defineHidden "message" (.string message.toStr)
  captureStackTrace rt o newTarget

/-! ## The two constructors -/

/-- The constructor of `ApiError` (`src/utils/ApiError.js`), run by
`new ApiError(...)`, so that `this.constructor` is `ApiError`. An omitted
argument is passed as `undefined`. -/
def ApiError (rt : Runtime) (statusCode : Int) (message errors stack : JSValue) : JSObject :=
  let message := defaultParam message (.string "Something went wrong")
  let errors := defaultParam errors (.array [])
  let stack := defaultParam stack (.string "")
  let this := errorConstructor rt "ApiError" message
  let this := this.set "statusCode" (.number statusCode)
  let this := this.set "data" .null
  let this := this.set "message" message
  let this := this.set "success" (.bool false)
  let this := this.set "errors" errors
  if stack.toBoolean then
    this.set "stack" stack
  else
    captureStackTrace rt this "ApiError"

/-- The object `this` of the `ApiError` constructor when the test `if (stack)`
is reached: `super(message)` followed by the five assignments. -/
def apiErrorBeforeTrace (rt : Runtime) (statusCode : Int) (message errors : JSValue) :
    JSObject :=
  let message := defaultParam message (.string "Something went wrong")
  let errors := defaultParam errors (.array [])
  let this := errorConstructor rt "ApiError" message
  let this := this.set "statusCode" (.number statusCode)
  let this := this.set "data" .null
  let this := this.set "message" message
  let this := this.set "success" (.bool false)
  let this := this.set "errors" errors
  this

/-- The constructor of `ApiResponse` (`src/utils/ApiResponse.js`). An omitted
argument is passed as `undefined`. -/
def ApiResponse (statusCode : Int) (data message : JSValue) : JSObject :=
  let message := defaultParam message (.string "success")
  let this : JSObject := []
  let this := this.set "statusCode" (.number statusCode)
  let this := this.set "data" data
  let this := this.set "message" message
  let this := this.set "success" (.bool (decide (statusCode < 400)))
  this

/-! ## Sample arguments -/

/-- A runtime whose capture yields a one-frame trace. -/
def sampleRuntime : Runtime :=
  { capture := fun _ _ => .string "Error\n    at getUser (user.controller.js:12:11)" }

/-- A runtime in which `Error.prepareStackTrace` is a function returning the
empty string, so that every capture yields the empty string. -/
def emptyTraceRuntime : Runtime :=
  { capture := fun _ _ => .string "" }

/-- A runtime in which `Error.stackTraceLimit` is not a number, so that no trace
is captured and `stack` is `undefined`. -/
def noTraceRuntime : Runtime :=
  { capture := fun _ _ => .undefined }

/-- The errors argument `[{field:"id", error:"missing"}]`. -/
def sampleErrors : JSValue :=
  .array [.object [("field", .string "id"), ("error", .string "missing")]]

/-- The payload `{id:1}`. -/
def sampleData : JSValue :=
  .object [("id", .number 1)]

end ApiUtils

namespace ApiUtils

/-! ## Auxiliary facts -/

theorem defaultParam_not_undefined (arg dflt : JSValue) (h : dflt.isUndefined = false) :
    (defaultParam arg dflt).isUndefined = false := by
  cases arg <;> first | exact h | rfl

theorem defaultParam_of_supplied (arg dflt : JSValue) (h : arg ≠ .undefined) :
    defaultParam arg dflt = arg := by
  cases arg <;> first | exact absurd rfl h | rfl

/-- The object the `ApiError` constructor has built when it tests `stack`. -/
theorem apiErrorBeforeTrace_shape (rt : Runtime) (statusCode : Int)
    (message errors : JSValue) :
    apiErrorBeforeTrace rt statusCode message errors =
      [ { key := "message", value := defaultParam message (.string "Something went wrong"),
          enumerable := false },
        { key := "stack",
          value := rt.capture
            [{ key := "message",
               value := .string (defaultParam message (.string "Something went wrong")).toStr,
               enumerable := false }] "ApiError",
          enumerable := false },
        { key := "statusCode", value := .number statusCode, enumerable := true },
        { key := "data", value := .null, enumerable := true },
        { key := "success", value := .bool false, enumerable := true },
        { key := "errors", value := defaultParam errors (.array []), enumerable := true } ] := by
  have hM := defaultParam_not_undefined message (.string "Something went wrong") rfl
  simp only [apiErrorBeforeTrace, errorConstructor, hM]
  simp [captureStackTrace, JSObject.set, JSObject.defineHidden, JSObject.hasOwn]

/-- The constructor is the object built so far with its `stack` settled by the
test `if (stack)`. -/
theorem apiError_eq_branch (rt : Runtime) (statusCode : Int)
    (message errors stack : JSValue) :
    ApiError rt statusCode message errors stack =
      if (defaultParam stack (.string "")).toBoolean then
        (apiErrorBeforeTrace rt statusCode message errors).set "stack"
          (defaultParam stack (.string ""))
      else
        captureStackTrace rt (apiErrorBeforeTrace rt statusCode message errors) "ApiError" := by
  rfl

/-- The object `new ApiError(...)` builds, property by property. -/
theorem apiError_shape (rt : Runtime) (statusCode : Int) (message errors stack : JSValue) :
    ApiError rt statusCode message errors stack =
      [ { key := "message", value := defaultParam message (.string "Something went wrong"),
          enumerable := false },
        { key := "stack",
          value :=
            if (defaultParam stack (.string "")).toBoolean then defaultParam stack (.string "")
            else rt.capture (apiErrorBeforeTrace rt statusCode message errors) "ApiError",
          enumerable := false },
        { key := "statusCode", value := .number statusCode, enumerable := true },
        { key := "data", value := .null, enumerable := true },
        { key := "success", value := .bool false, enumerable := true },
        { key := "errors", value := defaultParam errors (.array []), enumerable := true } ] := by
  rw [apiError_eq_branch]
  split
  · rw [apiErrorBeforeTrace_shape]
    simp [JSObject.set, JSObject.hasOwn]
  · simp only [captureStackTrace]
    generalize rt.capture (apiErrorBeforeTrace rt statusCode message errors) "ApiError" = t
    rw [apiErrorBeforeTrace_shape]
    simp [JSObject.defineHidden, JSObject.hasOwn]

/-- The object `new ApiResponse(...)` builds, property by property. -/
theorem apiResponse_shape (statusCode : Int) (data message : JSValue) :
    ApiResponse statusCode data message =
      [ { key := "statusCode", value := .number statusCode, enumerable := true },
        { key := "data", value := data, enumerable := true },
        { key := "message", value := defaultParam message (.string "success"),
          enumerable := true },
        { key := "success", value := .bool (decide (statusCode < 400)), enumerable := true } ] := by
  simp [ApiResponse, JSObject.set, JSObject.hasOwn]

/-! ## ApiResponse -/

/-- C1: the `success` field of an `ApiResponse` is `true` exactly when
`statusCode < 400` and `false` exactly when `statusCode >= 400`; it is `true`
at 399, `false` at 400, and is the same for every data and message. -/
theorem apiResponse_success_iff_lt_400 (statusCode : Int) (data message : JSValue) :
    ((ApiResponse statusCode data message).get "success" = .bool true ↔ statusCode < 400) ∧
    ((ApiResponse statusCode data message).get "success" = .bool false ↔ 400 ≤ statusCode) ∧
    (ApiResponse 399 data message).get "success" = .bool true ∧
    (ApiResponse 400 data message).get "success" = .bool false ∧
    ∀ data2 message2 : JSValue,
      (ApiResponse statusCode data2 message2).get "success"
        = (ApiResponse statusCode data message).get "success" := by
  simp only [apiResponse_shape]
  refine ⟨?_, ?_, ?_, ?_, ?_⟩
  · simp [JSObject.get]
  · simp [JSObject.get]
  · simp [JSObject.get]
  · simp [JSObject.get]
  · intro _ _
    simp [JSObject.get]

/-- C4: an `ApiResponse` built with a supplied message has exactly the four
fields `statusCode`, `data`, `message`, `success`, all of them enumerable, and
the first three hold the arguments unchanged. -/
theorem apiResponse_fields (statusCode : Int) (data message : JSValue)
    (hmsg : message ≠ .undefined) :
    (ApiResponse statusCode data message).ownKeys = ["statusCode", "data", "message", "success"] ∧
    (ApiResponse statusCode data message).all (fun p => p.enumerable) = true ∧
    (ApiResponse statusCode data message).get "statusCode" = .number statusCode ∧
    (ApiResponse statusCode data message).get "data" = data ∧
    (ApiResponse statusCode data message).get "message" = message := by
  simp only [apiResponse_shape, defaultParam_of_supplied message _ hmsg]
  simp [JSObject.ownKeys, JSObject.get]

/-- C4, at `new ApiResponse(200, {id:1}, "Data fetched successfully")`. -/
theorem apiResponse_fields_witness :
    JSValue.string "Data fetched successfully" ≠ .undefined ∧
    ((ApiResponse 200 sampleData (.string "Data fetched successfully")).ownKeys
        = ["statusCode", "data", "message", "success"] ∧
      (ApiResponse 200 sampleData (.string "Data fetched successfully")).all
        (fun p => p.enumerable) = true ∧
      (ApiResponse 200 sampleData (.string "Data fetched successfully")).get "statusCode"
        = .number 200 ∧
      (ApiResponse 200 sampleData (.string "Data fetched successfully")).get "data"
        = .object [("id", .number 1)] ∧
      (ApiResponse 200 sampleData (.string "Data fetched successfully")).get "message"
        = .string "Data fetched successfully") ∧
    (ApiResponse 200 sampleData (.string "Data fetched successfully")).get "success"
      = .bool true :=
  ⟨(by intro h; cases h),
   apiResponse_fields 200 sampleData (.string "Data fetched successfully") (by intro h; cases h),
   by simp [apiResponse_shape, JSObject.get]⟩

end ApiUtils

namespace ApiUtils

/-! ## ApiError -/

/-- C2: the `success` field of an `ApiError` is `false` for every status code,
below 400 or not, and every message, errors and stack argument. -/
theorem apiError_success_false (rt : Runtime) (statusCode : Int)
    (message errors stack : JSValue) :
    (ApiError rt statusCode message errors stack).get "success" = .bool false := by
  rw [apiError_shape]
  simp [JSObject.get]

/-- C3: an `ApiError` built with a supplied message and supplied errors holds the
status code, the message and the errors it was given, unchanged, its `data` is
`null` and its `success` is `false`; `data` is `null` whatever the four
arguments are. -/
theorem apiError_fields (rt : Runtime) (statusCode : Int) (message errors stack : JSValue)
    (hmsg : message ≠ .undefined) (herr : errors ≠ .undefined) :
    (ApiError rt statusCode message errors stack).get "statusCode" = .number statusCode ∧
    (ApiError rt statusCode message errors stack).get "message" = message ∧
    (ApiError rt statusCode message errors stack).get "errors" = errors ∧
    (ApiError rt statusCode message errors stack).get "data" = .null ∧
    (ApiError rt statusCode message errors stack).get "success" = .bool false ∧
    ∀ (code2 : Int) (message2 errors2 stack2 : JSValue),
      (ApiError rt code2 message2 errors2 stack2).get "data" = .null := by
  simp only [apiError_shape, defaultParam_of_supplied message _ hmsg,
    defaultParam_of_supplied errors _ herr]
  simp [JSObject.get]

/-- C3, at `new ApiError(404, "Not found", [{field:"id", error:"missing"}])`. -/
theorem apiError_fields_witness :
    JSValue.string "Not found" ≠ .undefined ∧ sampleErrors ≠ .undefined ∧
    ((ApiError sampleRuntime 404 (.string "Not found") sampleErrors .undefined).get "statusCode"
        = .number 404 ∧
      (ApiError sampleRuntime 404 (.string "Not found") sampleErrors .undefined).get "message"
        = .string "Not found" ∧
      (ApiError sampleRuntime 404 (.string "Not found") sampleErrors .undefined).get "errors"
        = sampleErrors ∧
      (ApiError sampleRuntime 404 (.string "Not found") sampleErrors .undefined).get "data"
        = .null ∧
      (ApiError sampleRuntime 404 (.string "Not found") sampleErrors .undefined).get "success"
        = .bool false ∧
      ∀ (code2 : Int) (message2 errors2 stack2 : JSValue),
        (ApiError sampleRuntime code2 message2 errors2 stack2).get "data" = .null) :=
  ⟨(by intro h; cases h), (by intro h; cases h),
   apiError_fields sampleRuntime 404 (.string "Not found") sampleErrors .undefined
     (by intro h; cases h) (by intro h; cases h)⟩

/-- C5: with the message omitted, an `ApiError` has the message
`Something went wrong` and an `ApiResponse` has the message `success`. -/
theorem omitted_message_defaults (rt : Runtime) (statusCode : Int)
    (errors stack data : JSValue) :
    (ApiError rt statusCode .undefined errors stack).get "message"
      = .string "Something went wrong" ∧
    (ApiResponse statusCode data .undefined).get "message" = .string "success" := by
  rw [apiError_shape, apiResponse_shape]
  simp [JSObject.get, defaultParam]

/-- C6, as stated, fails: the empty string is falsy, yet
`new ApiError(400, "")` keeps the empty string as its message. -/
theorem apiError_empty_message_kept :
    (JSValue.string "").toBoolean = false ∧
    (ApiError sampleRuntime 400 (.string "") .undefined .undefined).get "message"
      = .string "" ∧
    (ApiError sampleRuntime 400 (.string "") .undefined .undefined).get "message"
      ≠ .string "Something went wrong" := by
  rw [apiError_shape]
  refine ⟨by decide, by simp [JSObject.get, defaultParam], ?_⟩
  simp [JSObject.get, defaultParam]

/-- C6, amended: the message of an `ApiError` is `Something went wrong` when the
message argument is absent (`undefined`), and is the argument itself otherwise,
falsy or not; so the empty string and `null` are kept. -/
theorem apiError_message_default_only_when_absent (rt : Runtime) (statusCode : Int)
    (message errors stack : JSValue) :
    (ApiError rt statusCode message errors stack).get "message"
      = (if message.isUndefined then .string "Something went wrong" else message) ∧
    (ApiError rt statusCode (.string "") errors stack).get "message" = .string "" ∧
    (ApiError rt statusCode .null errors stack).get "message" = .null := by
  simp only [apiError_shape]
  refine ⟨?_, by simp [JSObject.get, defaultParam], by simp [JSObject.get, defaultParam]⟩
  cases message <;> simp [JSObject.get, defaultParam, JSValue.isUndefined]

/-- C7: with the errors argument omitted, the `errors` of an `ApiError` is the
empty array, which is neither `null` nor `undefined`. -/
theorem apiError_errors_default (rt : Runtime) (statusCode : Int) (message stack : JSValue) :
    (ApiError rt statusCode message .undefined stack).get "errors" = .array [] ∧
    (ApiError rt statusCode message .undefined stack).get "errors" ≠ .null ∧
    (ApiError rt statusCode message .undefined stack).get "errors" ≠ .undefined := by
  rw [apiError_shape]
  simp [JSObject.get, defaultParam]

/-- C8: a non-empty string passed as the stack argument is stored as the `stack`
of the `ApiError` exactly, and the object built does not depend on the runtime's
stack capture. -/
theorem apiError_supplied_stack (rt : Runtime) (statusCode : Int) (message errors : JSValue)
    (trace : String) (htrace : trace ≠ "") :
    (ApiError rt statusCode message errors (.string trace)).get "stack" = .string trace ∧
    ∀ rt2 : Runtime,
      ApiError rt2 statusCode message errors (.string trace)
        = ApiError rt statusCode message errors (.string trace) := by
  simp only [apiError_shape]
  simp [JSObject.get, defaultParam, JSValue.toBoolean, htrace]

/-- C8, at the stack argument `custom trace`. -/
theorem apiError_supplied_stack_witness :
    "custom trace" ≠ "" ∧
    ((ApiError sampleRuntime 500 (.string "boom") .undefined (.string "custom trace")).get "stack"
        = .string "custom trace" ∧
      ∀ rt2 : Runtime,
        ApiError rt2 500 (.string "boom") .undefined (.string "custom trace")
          = ApiError sampleRuntime 500 (.string "boom") .undefined (.string "custom trace")) :=
  ⟨(by decide),
   apiError_supplied_stack sampleRuntime 500 (.string "boom") .undefined "custom trace"
     (by decide)⟩

/-- C9, as stated, fails: the keys serialized for
`new ApiError(404, "Not found", [{field:"id", error:"missing"}])` are
`statusCode`, `data`, `success`, `errors`; `message` is not among them. -/
theorem apiError_json_omits_message :
    (ApiError sampleRuntime 404 (.string "Not found") sampleErrors .undefined).jsonKeys
      = ["statusCode", "data", "success", "errors"] ∧
    "message" ∉
      (ApiError sampleRuntime 404 (.string "Not found") sampleErrors .undefined).jsonKeys ∧
    (ApiError sampleRuntime 404 (.string "Not found") sampleErrors .undefined).jsonKeys
      ≠ ["statusCode", "data", "message", "success", "errors"] := by
  rw [apiError_shape]
  simp [JSObject.jsonKeys, JSValue.isUndefined, defaultParam, sampleErrors]

/-- C9, amended: the keys serialized for an `ApiError` are exactly `statusCode`,
`data`, `success` and `errors`, with `data` null and `success` false; `message`
is an own property carrying the constructor's message value, but like `stack`
it is not enumerable and is not serialized. -/
theorem apiError_json_keys (rt : Runtime) (statusCode : Int)
    (message errors stack : JSValue) :
    (ApiError rt statusCode message errors stack).jsonKeys
      = ["statusCode", "data", "success", "errors"] ∧
    (ApiError rt statusCode message errors stack).get "data" = .null ∧
    (ApiError rt statusCode message errors stack).get "success" = .bool false ∧
    (ApiError rt statusCode message errors stack).get "message"
      = defaultParam message (.string "Something went wrong") ∧
    "message" ∈ (ApiError rt statusCode message errors stack).ownKeys ∧
    "message" ∉ (ApiError rt statusCode message errors stack).jsonKeys ∧
    "stack" ∉ (ApiError rt statusCode message errors stack).jsonKeys := by
  have herr := defaultParam_not_undefined errors (.array []) rfl
  have hnum : (JSValue.number statusCode).isUndefined = false := rfl
  have hnull : JSValue.null.isUndefined = false := rfl
  have hbool : (JSValue.bool false).isUndefined = false := rfl
  simp only [apiError_shape]
  simp [JSObject.jsonKeys, JSObject.ownKeys, JSObject.get, herr, hnum, hnull, hbool]

/-- C10, as stated, fails: with the stack argument omitted the constructor
stores what the runtime's capture yields, which is the empty string where
`Error.prepareStackTrace` returns it, and `undefined`, not a string, where
`Error.stackTraceLimit` is not a number. -/
theorem apiError_captured_stack_may_be_empty :
    (ApiError emptyTraceRuntime 404 (.string "Not found") .undefined .undefined).get "stack"
      = .string "" ∧
    (ApiError emptyTraceRuntime 404 (.string "Not found") .undefined (.string "")).get "stack"
      = .string "" ∧
    (ApiError noTraceRuntime 404 (.string "Not found") .undefined .undefined).get "stack"
      = .undefined := by
  simp only [apiError_shape]
  simp [JSObject.get, defaultParam, JSValue.toBoolean, emptyTraceRuntime, noTraceRuntime]

/-- C10, amended: with the stack argument omitted or the empty string, the
constructor ends with the call `Error.captureStackTrace(this, ApiError)` on the
object it has built, and the `stack` of the `ApiError` is the value that capture
yields, whatever it is, kept non-enumerable. -/
theorem apiError_captured_stack (rt : Runtime) (statusCode : Int)
    (message errors stack : JSValue) (hstack : stack = .undefined ∨ stack = .string "") :
    ApiError rt statusCode message errors stack
      = captureStackTrace rt (apiErrorBeforeTrace rt statusCode message errors) "ApiError" ∧
    (ApiError rt statusCode message errors stack).get "stack"
      = rt.capture (apiErrorBeforeTrace rt statusCode message errors) "ApiError" ∧
    "stack" ∉ (ApiError rt statusCode message errors stack).jsonKeys := by
  have hfalse : (defaultParam stack (.string "")).toBoolean = false := by
    rcases hstack with h | h <;> subst h <;> simp [defaultParam, JSValue.toBoolean]
  refine ⟨?_, ?_, ?_⟩
  · rw [apiError_eq_branch, hfalse]
    rfl
  · rw [apiError_shape, hfalse]
    simp [JSObject.get]
  · rw [apiError_shape]
    simp [JSObject.jsonKeys]

/-- C10, amended, at `new ApiError(404, "Not found")`. -/
theorem apiError_captured_stack_witness :
    (JSValue.undefined = .undefined ∨ JSValue.undefined = .string "") ∧
    (ApiError sampleRuntime 404 (.string "Not found") .undefined .undefined
        = captureStackTrace sampleRuntime
            (apiErrorBeforeTrace sampleRuntime 404 (.string "Not found") .undefined)
            "ApiError" ∧
      (ApiError sampleRuntime 404 (.string "Not found") .undefined .undefined).get "stack"
        = sampleRuntime.capture
            (apiErrorBeforeTrace sampleRuntime 404 (.string "Not found") .undefined)
            "ApiError" ∧
      "stack" ∉
        (ApiError sampleRuntime 404 (.string "Not found") .undefined .undefined).jsonKeys) :=
  ⟨Or.inl rfl,
   apiError_captured_stack sampleRuntime 404 (.string "Not found") .undefined .undefined
     (Or.inl rfl)⟩

end ApiUtils
